import Mathlib

/-!
Verification of `setupPromClient` from `@egomobile/http-prometheus`.

The repository carries two variants of the same function:

* `src/src/index.ts` (embedded below as `setupPromClientV1`), and
* the `index.ts` text bundled in `src/unnamed/part_000` (embedded as
  `setupPromClientV2`), which additionally accepts a bare registry-provider
  function as the third argument.

The embedding models JavaScript runtime values by their observable shape:
registries are identified by an `id` (object identity) together with the
snapshot they would serialize; providers are constant functions (which is what
every provider constructed by the source is); property slots distinguish
absent/null, well-typed, and wrongly-typed values; side effects performed
during setup are recorded as an ordered trace.
-/

/-- Middleware values are opaque to the source; we identify them by a tag. -/
abbrev HttpMiddleware := Nat

/-- Request paths are opaque and forwarded verbatim to registration. -/
abbrev HttpRequestPath := Nat

/-- A prom-client registry, observed through its object identity `id`, the
body its `metrics()` snapshot yields, and its declared `contentType`. -/
structure Registry where
  id : Nat
  metrics : String
  contentType : String
deriving DecidableEq

/-- A registry provider as callers may pass it: a function returning the
registry directly (`sync`) or a promise of it (`promise`).  Providers are
modelled as constant functions, which all providers in the source are. -/
inductive RegistryProvider where
  | sync : Registry → RegistryProvider
  | promise : Registry → RegistryProvider
deriving DecidableEq

/-- The registry that awaiting a call of the provider yields. -/
def RegistryProvider.resolve : RegistryProvider → Registry
  | .sync r => r
  | .promise r => r

/-- An always-promise-returning provider (the shape `asAsync` produces),
recorded by the registry its promise resolves to. -/
structure AsyncRegistryProvider where
  resolvesTo : Registry
deriving DecidableEq

/-- Modelled from the spec: `asAsync` is implemented in `./utils/internal`,
which is not among the given sources.  Per section 4.3 it normalizes any
registry provider - whether it returns a registry directly or a promise of
one - into a uniform function that always returns a promise resolving to the
provider's underlying value, introducing no transformation of that value. -/
def asAsync (p : RegistryProvider) : AsyncRegistryProvider :=
  ⟨p.resolve⟩

/-- A JavaScript property slot: absent or null/undefined (`nil`), present with
a well-typed value (`val`), or present with a value of the wrong runtime type
(`bad`). -/
inductive JsField (α : Type) where
  | nil : JsField α
  | val : α → JsField α
  | bad : JsField α
deriving DecidableEq

/-- Modelled from the spec: `isNil` is implemented in `./utils/internal`,
which is not among the given sources; it tests a value for null or undefined,
which the `nil` constructor stands for here. -/
def JsField.isNil {α : Type} : JsField α → Bool
  | .nil => true
  | _ => false

/-- The options object accepted by `setupPromClient`
(`ISetupPromClientOptions` in the source). -/
structure ISetupPromClientOptions where
  getRegistry : JsField RegistryProvider
  httpMethod : JsField String
  use : JsField (List HttpMiddleware)
deriving DecidableEq

/-- Runtime shapes of the third argument (`SetupPromClientArg3`): absent or
null/undefined, a registry instance, a middleware array, an options object, a
method-name string, or a bare provider function. -/
inductive SetupPromClientArg3 where
  | nil : SetupPromClientArg3
  | registry : Registry → SetupPromClientArg3
  | array : List HttpMiddleware → SetupPromClientArg3
  | options : ISetupPromClientOptions → SetupPromClientArg3
  | str : String → SetupPromClientArg3
  | func : RegistryProvider → SetupPromClientArg3
deriving DecidableEq

/-- The host server handle, observed through its capability marker
`isEgoHttpServer`. -/
structure IHttpServer where
  isEgoHttpServer : Bool
deriving DecidableEq

/-- Side effects performed during a setup call, in execution order:
`new promClient.Registry()`, `promClient.collectDefaultMetrics(...)`, and the
dynamic registration call `server[httpMethod](path, use, requestHandler)`.
The registered handler is `requestHandler` below, applied to the recorded
wrapped provider. -/
inductive Effect where
  | createRegistry : Nat → Effect
  | collectDefaultMetrics : Nat → Effect
  | register : String → HttpRequestPath → List HttpMiddleware →
      AsyncRegistryProvider → Effect
deriving DecidableEq

/-- The returned object `{ getRegistry, requestHandler }`; the request handler
is determined by the wrapped provider it closes over, so recording the
provider records the handler. -/
structure ISetupPromClientResult where
  getRegistry : AsyncRegistryProvider
deriving DecidableEq

/-- Observable writes performed on the response object by the handler. -/
inductive RespEvent where
  | writeHead : Nat → List (String × String) → RespEvent
  | write : String → RespEvent
deriving DecidableEq

/-- The request handler built by both variants (the handler text is identical
in the two files): await the wrapped provider, take the registry's snapshot,
write head 200 with the registry's content type and the stringified body
length, then write the body. -/
def requestHandler (getRegistry : AsyncRegistryProvider) : List RespEvent :=
  let registry := getRegistry.resolvesTo
  let responseData := registry.metrics
  [RespEvent.writeHead 200
    [("Content-Type", registry.contentType),
     ("Content-Length", toString responseData.length)],
   RespEvent.write responseData]

/-- True exactly on `Except.error`. -/
def isErr {ε α : Type} : Except ε α → Bool
  | .error _ => true
  | .ok _ => false

/-- The state of the local `getRegistry` variable in the `src/src/index.ts`
variant: never assigned along the taken branch, assigned a function, or
assigned a present-but-non-function `getRegistry` field value. -/
inductive GrSlot where
  | unassigned : GrSlot
  | fn : RegistryProvider → GrSlot
  | notFn : GrSlot
deriving DecidableEq

/-- Embedding of `setupPromClient` from `src/src/index.ts` (lines 110-189).
The chain first checks the server marker, then dispatches on the shape of
`arg3`: a registry instance assigns a constant async provider; an array only
pushes into the local `use`; a string only sets `httpMethod`; every other
shape (nil, options object, bare function) reads `arg3?.getRegistry`,
creating a fresh default registry when that property is nil, and then
validates `arg3?.use` and `arg3?.httpMethod`.  After the chain, the guard
`typeof getRegistry !== "function"` throws when the local was never assigned
a function.  `freshReg` stands for the registry `new promClient.Registry()`
would allocate. -/
def setupPromClientV1 (server : IHttpServer) (path : HttpRequestPath)
    (arg3 : SetupPromClientArg3) (freshReg : Registry) :
    List Effect × Except String ISetupPromClientResult :=
  if server.isEgoHttpServer ≠ true then
    ([], Except.error "server must be a valid e.GO HTTP server instance")
  else
    let chain : Except (List Effect × String)
        (List Effect × GrSlot × List HttpMiddleware × String) :=
      match arg3 with
      | .registry r => Except.ok ([], GrSlot.fn (.promise r), [], "get")
      | .array ms => Except.ok ([], GrSlot.unassigned, ms, "get")
      | .str s => Except.ok ([], GrSlot.unassigned, [], s)
      | arg =>
        let o : ISetupPromClientOptions :=
          match arg with
          | .options oo => oo
          | _ => ⟨.nil, .nil, .nil⟩
        let resolved : List Effect × GrSlot :=
          match o.getRegistry with
          | .nil =>
            ([Effect.createRegistry freshReg.id,
              Effect.collectDefaultMetrics freshReg.id],
             GrSlot.fn (.promise freshReg))
          | .val p => ([], GrSlot.fn p)
          | .bad => ([], GrSlot.notFn)
        match o.use with
        | .bad => Except.error (resolved.1, "arg3.use must be of type array")
        | u =>
          let use : List HttpMiddleware :=
            match u with
            | .val ms => ms
            | _ => []
          match o.httpMethod with
          | .bad =>
            Except.error (resolved.1, "arg3.httpMethod must be of type string")
          | hm =>
            let httpMethod : String :=
              match hm with
              | .val s => s
              | _ => "get"
            Except.ok (resolved.1, resolved.2, use, httpMethod)
    match chain with
    | .error (eff, msg) => (eff, Except.error msg)
    | .ok (eff, GrSlot.fn p, use, httpMethod) =>
      let getRegistry := asAsync p
      (eff ++ [Effect.register httpMethod path use getRegistry],
       Except.ok ⟨getRegistry⟩)
    | .ok (eff, _, _, _) =>
      (eff, Except.error "optionsOrRegistry is an invalid value")

/-- Embedding of `setupPromClient` from the `index.ts` in
`src/unnamed/part_000` (lines 181-282).  After the server-marker check, the
third argument is normalized into an options object (nil becomes `{}`, a
registry becomes a constant async `getRegistry`, an array becomes `use`, an
object is spread-copied, a string becomes `httpMethod`, a function becomes
`getRegistry`).  Then `getRegistry` is resolved (creating and populating a
fresh default registry when absent, or throwing when present but not a
function), `use` and `httpMethod` are validated (the source's httpMethod
error message is the copy-pasted string "use must be of type array"), the
provider is wrapped with `asAsync`, and the handler is registered. -/
def setupPromClientV2 (server : IHttpServer) (path : HttpRequestPath)
    (arg3 : SetupPromClientArg3) (freshReg : Registry) :
    List Effect × Except String ISetupPromClientResult :=
  if server.isEgoHttpServer ≠ true then
    ([], Except.error "server must be a valid e.GO HTTP server instance")
  else
    let options : ISetupPromClientOptions :=
      match arg3 with
      | .nil => ⟨.nil, .nil, .nil⟩
      | .registry r => ⟨.val (.promise r), .nil, .nil⟩
      | .array ms => ⟨.nil, .nil, .val ms⟩
      | .options o => o
      | .str s => ⟨.nil, .val s, .nil⟩
      | .func p => ⟨.val p, .nil, .nil⟩
    let resolved : List Effect × Option RegistryProvider :=
      match options.getRegistry with
      | .nil =>
        ([Effect.createRegistry freshReg.id,
          Effect.collectDefaultMetrics freshReg.id],
         some (.promise freshReg))
      | .val p => ([], some p)
      | .bad => ([], none)
    match resolved with
    | (eff, none) => (eff, Except.error "getRegistry must be of type function")
    | (eff, some gr) =>
      match options.use with
      | .bad => (eff, Except.error "use must be of type array")
      | u =>
        let use : List HttpMiddleware :=
          match u with
          | .val ms => ms
          | _ => []
        match options.httpMethod with
        | .bad => (eff, Except.error "use must be of type array")
        | hm =>
          let httpMethod : String :=
            match hm with
            | .val s => s
            | _ => "get"
          let getRegistry := asAsync gr
          (eff ++ [Effect.register httpMethod path use getRegistry],
           Except.ok ⟨getRegistry⟩)

/-- A heap of JavaScript array objects: the index is the object identity and
the cell holds the array's current elements. -/
abbrev ArrHeap := List (List HttpMiddleware)

/-- Reads an array object's current elements. -/
def readArr (h : ArrHeap) (i : Nat) : List HttpMiddleware :=
  h.getD i []

/-- Overwrites an array object's elements in place (models mutation of the
array by the caller). -/
def writeArr (h : ArrHeap) (i : Nat) (xs : List HttpMiddleware) : ArrHeap :=
  h.set i xs

/-- Embeds the `use`-array handling shared by both variants:
`const use: HttpMiddleware[] = []` followed by `use.push(...callerArray)` and
`server[httpMethod](path, use, requestHandler)`.  A fresh array object is
allocated, the caller's current elements are copied into it element-wise, and
the fresh object is the one handed to registration.  Returns the new heap and
the identity of the registered array. -/
def buildUseArray (h : ArrHeap) (caller : Nat) : ArrHeap × Nat :=
  (h ++ [readArr h caller], h.length)

/-- A heap of options objects. -/
abbrev OptHeap := List ISetupPromClientOptions

/-- Reads an options object from the heap. -/
def readOpt (h : OptHeap) (i : Nat) : ISetupPromClientOptions :=
  h.getD i ⟨.nil, .nil, .nil⟩

/-- Embeds `options = { ...arg3 }` followed by the later write
`options.getRegistry = async () => registry` in the part_000 variant: the
spread copies the caller's fields into a fresh object, and the subsequent
field write targets that copy only.  Returns the new heap and the identity of
the copy. -/
def copyAndResolveOptions (h : OptHeap) (caller : Nat) (dflt : RegistryProvider) :
    OptHeap × Nat :=
  let o := readOpt h caller
  let o2 :=
    if o.getRegistry.isNil then { o with getRegistry := .val dflt } else o
  (h ++ [o2], h.length)

/-- Tests whether an effect is a registration under the given path carrying
the given wrapped provider (and therefore the handler closed over it). -/
def isRegisterWith (pth : HttpRequestPath) (g : AsyncRegistryProvider) :
    Effect → Bool
  | .register _ p _ g2 => decide (p = pth) && decide (g2 = g)
  | _ => false

/-- Holds when a successful setup outcome registered, under the given path, a
handler closed over the very provider it returned (vacuous on errors). -/
def registersReturned
    (out : List Effect × Except String ISetupPromClientResult)
    (pth : HttpRequestPath) : Prop :=
  match out.2 with
  | .ok res => out.1.any (isRegisterWith pth res.getRegistry) = true
  | .error _ => True

theorem getD_append_self {α : Type} (l : List α) (x d : α) :
    (l ++ [x]).getD l.length d = x := by
  induction l with
  | nil => rfl
  | cons a t ih =>
    simp only [List.cons_append, List.length_cons, List.getD_cons_succ]
    exact ih

theorem getD_append_left {α : Type} (l l2 : List α) (i : Nat) (d : α)
    (hi : i < l.length) : (l ++ l2).getD i d = l.getD i d := by
  induction l generalizing i with
  | nil => exact absurd hi (Nat.not_lt_zero i)
  | cons a t ih =>
    cases i with
    | zero => rfl
    | succ j => simpa using ih j (Nat.lt_of_succ_lt_succ hi)

theorem getD_set_ne {α : Type} (l : List α) (i j : Nat) (x d : α)
    (hij : i ≠ j) : (l.set i x).getD j d = l.getD j d := by
  induction l generalizing i j with
  | nil => rfl
  | cons a t ih =>
    cases i with
    | zero =>
      cases j with
      | zero => exact absurd rfl hij
      | succ m => rfl
    | succ n =>
      cases j with
      | zero => rfl
      | succ m =>
        simp only [List.set, List.getD_cons_succ]
        exact ih n m fun hnm => hij (by simp [hnm])

theorem getD_set_self {α : Type} (l : List α) (i : Nat) (x d : α)
    (hi : i < l.length) : (l.set i x).getD i d = x := by
  induction l generalizing i with
  | nil => exact absurd hi (Nat.not_lt_zero i)
  | cons a t ih =>
    cases i with
    | zero => rfl
    | succ j => simpa using ih j (Nat.lt_of_succ_lt_succ hi)

/-- C1: every invocation of the request handler awaits the wrapped registry
provider, obtains the registry's metrics snapshot, and writes status 200 with
header Content-Type equal to the registry's content type, header
Content-Length equal to the stringified exact length of the snapshot body,
and the body untransformed - for every registry, including an empty one; and
in both variants every successful setup registers a handler closed over the
very provider it returns. -/
theorem spec_c1_handler_response (server : IHttpServer) (path : HttpRequestPath)
    (arg3 : SetupPromClientArg3) (freshReg : Registry) :
    registersReturned (setupPromClientV2 server path arg3 freshReg) path ∧
    registersReturned (setupPromClientV1 server path arg3 freshReg) path ∧
    ∀ g : AsyncRegistryProvider,
      requestHandler g =
        [RespEvent.writeHead 200
          [("Content-Type", g.resolvesTo.contentType),
           ("Content-Length", toString g.resolvesTo.metrics.length)],
         RespEvent.write g.resolvesTo.metrics] := by
  refine ⟨?_, ?_, fun g => rfl⟩ <;>
    cases hserver : server.isEgoHttpServer <;>
      rcases arg3 with _ | r | ms | ⟨g, hm, u⟩ | s | p <;>
        first
        | (cases g <;> cases hm <;> cases u <;>
            simp [setupPromClientV1, setupPromClientV2, registersReturned,
              isRegisterWith, hserver])
        | simp [setupPromClientV1, setupPromClientV2, registersReturned,
            isRegisterWith, hserver]

/-- C2: in both variants, a server argument without the capability marker
`isEgoHttpServer === true` makes the call raise the type error immediately,
with an empty effect trace: no registry creation, no default-metrics
collection, no registration. -/
theorem spec_c2_server_check (server : IHttpServer) (path : HttpRequestPath)
    (arg3 : SetupPromClientArg3) (freshReg : Registry)
    (h : server.isEgoHttpServer ≠ true) :
    setupPromClientV1 server path arg3 freshReg =
      ([], Except.error "server must be a valid e.GO HTTP server instance") ∧
    setupPromClientV2 server path arg3 freshReg =
      ([], Except.error "server must be a valid e.GO HTTP server instance") := by
  constructor
  · unfold setupPromClientV1
    rw [if_pos h]
  · unfold setupPromClientV2
    rw [if_pos h]

/-- Witness for C2 at a concrete marker-less server. -/
theorem spec_c2_server_check_witness :
    (IHttpServer.mk false).isEgoHttpServer ≠ true ∧
    setupPromClientV1 ⟨false⟩ 0 .nil ⟨0, "", ""⟩ =
      ([], Except.error "server must be a valid e.GO HTTP server instance") ∧
    setupPromClientV2 ⟨false⟩ 0 .nil ⟨0, "", ""⟩ =
      ([], Except.error "server must be a valid e.GO HTTP server instance") :=
  ⟨by decide,
   (spec_c2_server_check ⟨false⟩ 0 .nil ⟨0, "", ""⟩ (by decide)).1,
   (spec_c2_server_check ⟨false⟩ 0 .nil ⟨0, "", ""⟩ (by decide)).2⟩

/-- C3: in both variants, calling with no third argument, or with an options
object whose `getRegistry` is absent (its other fields well-typed), creates a
fresh registry, collects default process metrics into it exactly once, and
returns a `getRegistry` that is a constant provider resolving to that same
registry instance on every call. -/
theorem spec_c3_default_registry (server : IHttpServer) (path : HttpRequestPath)
    (freshReg : Registry) (hm : JsField String)
    (u : JsField (List HttpMiddleware)) (hs : server.isEgoHttpServer = true)
    (hhm : hm ≠ .bad) (hu : u ≠ .bad) :
    setupPromClientV1 server path .nil freshReg =
      ([Effect.createRegistry freshReg.id,
        Effect.collectDefaultMetrics freshReg.id,
        Effect.register "get" path [] ⟨freshReg⟩],
       Except.ok ⟨⟨freshReg⟩⟩) ∧
    setupPromClientV2 server path .nil freshReg =
      ([Effect.createRegistry freshReg.id,
        Effect.collectDefaultMetrics freshReg.id,
        Effect.register "get" path [] ⟨freshReg⟩],
       Except.ok ⟨⟨freshReg⟩⟩) ∧
    (∃ m ms, setupPromClientV1 server path (.options ⟨.nil, hm, u⟩) freshReg =
      ([Effect.createRegistry freshReg.id,
        Effect.collectDefaultMetrics freshReg.id,
        Effect.register m path ms ⟨freshReg⟩],
       Except.ok ⟨⟨freshReg⟩⟩)) ∧
    (∃ m ms, setupPromClientV2 server path (.options ⟨.nil, hm, u⟩) freshReg =
      ([Effect.createRegistry freshReg.id,
        Effect.collectDefaultMetrics freshReg.id,
        Effect.register m path ms ⟨freshReg⟩],
       Except.ok ⟨⟨freshReg⟩⟩)) := by
  refine ⟨by simp [setupPromClientV1, hs, asAsync, RegistryProvider.resolve],
    by simp [setupPromClientV2, hs, asAsync, RegistryProvider.resolve],
    ?_, ?_⟩ <;>
    · cases hm with
      | bad => exact absurd rfl hhm
      | nil =>
        cases u with
        | bad => exact absurd rfl hu
        | nil =>
          exact ⟨"get", [], by simp [setupPromClientV1, setupPromClientV2, hs, asAsync, RegistryProvider.resolve]⟩
        | val ms =>
          exact ⟨"get", ms, by simp [setupPromClientV1, setupPromClientV2, hs, asAsync, RegistryProvider.resolve]⟩
      | val s =>
        cases u with
        | bad => exact absurd rfl hu
        | nil =>
          exact ⟨s, [], by simp [setupPromClientV1, setupPromClientV2, hs, asAsync, RegistryProvider.resolve]⟩
        | val ms =>
          exact ⟨s, ms, by simp [setupPromClientV1, setupPromClientV2, hs, asAsync, RegistryProvider.resolve]⟩

/-- Witness for C3 at a concrete server, registry and empty options. -/
theorem spec_c3_default_registry_witness :
    (IHttpServer.mk true).isEgoHttpServer = true ∧
    (JsField.nil : JsField String) ≠ .bad ∧
    (JsField.nil : JsField (List HttpMiddleware)) ≠ .bad ∧
    setupPromClientV1 ⟨true⟩ 0 .nil ⟨7, "", "ct"⟩ =
      ([Effect.createRegistry 7, Effect.collectDefaultMetrics 7,
        Effect.register "get" 0 [] ⟨⟨7, "", "ct"⟩⟩],
       Except.ok ⟨⟨⟨7, "", "ct"⟩⟩⟩) :=
  ⟨by decide, by decide, by decide,
   (spec_c3_default_registry ⟨true⟩ 0 ⟨7, "", "ct"⟩ .nil .nil
     (by decide) (by decide) (by decide)).1⟩

/-- C4: in both variants, a registry-instance third argument makes the
returned `getRegistry` a constant provider resolving to exactly that
instance; no registry is created and no default-metrics collection happens
(the effect trace holds only the registration). -/
theorem spec_c4_registry_instance (server : IHttpServer)
    (path : HttpRequestPath) (r freshReg : Registry)
    (hs : server.isEgoHttpServer = true) :
    setupPromClientV1 server path (.registry r) freshReg =
      ([Effect.register "get" path [] ⟨r⟩], Except.ok ⟨⟨r⟩⟩) ∧
    setupPromClientV2 server path (.registry r) freshReg =
      ([Effect.register "get" path [] ⟨r⟩], Except.ok ⟨⟨r⟩⟩) := by
  constructor
  · simp [setupPromClientV1, hs, asAsync, RegistryProvider.resolve]
  · simp [setupPromClientV2, hs, asAsync, RegistryProvider.resolve]

/-- Witness for C4 at a concrete server and registry. -/
theorem spec_c4_registry_instance_witness :
    (IHttpServer.mk true).isEgoHttpServer = true ∧
    setupPromClientV1 ⟨true⟩ 0 (.registry ⟨3, "m", "ct"⟩) ⟨9, "", ""⟩ =
      ([Effect.register "get" 0 [] ⟨⟨3, "m", "ct"⟩⟩],
       Except.ok ⟨⟨⟨3, "m", "ct"⟩⟩⟩) ∧
    setupPromClientV2 ⟨true⟩ 0 (.registry ⟨3, "m", "ct"⟩) ⟨9, "", ""⟩ =
      ([Effect.register "get" 0 [] ⟨⟨3, "m", "ct"⟩⟩],
       Except.ok ⟨⟨⟨3, "m", "ct"⟩⟩⟩) :=
  ⟨by decide,
   (spec_c4_registry_instance ⟨true⟩ 0 ⟨3, "m", "ct"⟩ ⟨9, "", ""⟩ (by decide)).1,
   (spec_c4_registry_instance ⟨true⟩ 0 ⟨3, "m", "ct"⟩ ⟨9, "", ""⟩ (by decide)).2⟩

/-- C5: in the part_000 variant a string third argument registers under that
method with empty middleware and an array third argument registers under
"get" with exactly that sequence; the src/src/index.ts variant instead throws
`TypeError("optionsOrRegistry is an invalid value")` on both shapes, because
its local `getRegistry` is never assigned on those branches - contradicting
its own overload declarations for `use` and `httpMethod`. -/
theorem spec_c5_string_array_registration :
    setupPromClientV2 ⟨true⟩ 0 (.str "post") ⟨1, "", ""⟩ =
      ([Effect.createRegistry 1, Effect.collectDefaultMetrics 1,
        Effect.register "post" 0 [] ⟨⟨1, "", ""⟩⟩],
       Except.ok ⟨⟨⟨1, "", ""⟩⟩⟩) ∧
    setupPromClientV2 ⟨true⟩ 0 (.array [7, 8]) ⟨1, "", ""⟩ =
      ([Effect.createRegistry 1, Effect.collectDefaultMetrics 1,
        Effect.register "get" 0 [7, 8] ⟨⟨1, "", ""⟩⟩],
       Except.ok ⟨⟨⟨1, "", ""⟩⟩⟩) ∧
    setupPromClientV1 ⟨true⟩ 0 (.str "post") ⟨1, "", ""⟩ =
      ([], Except.error "optionsOrRegistry is an invalid value") ∧
    setupPromClientV1 ⟨true⟩ 0 (.array [7, 8]) ⟨1, "", ""⟩ =
      ([], Except.error "optionsOrRegistry is an invalid value") :=
  ⟨rfl, rfl, rfl, rfl⟩

/-- C6: in the part_000 variant, given a marked server, a call fails with a
type error exactly when the options object carries a `getRegistry` that is
present but not callable, a `use` that is present but not an array, or an
`httpMethod` that is present but not a string; all non-object shapes raise no
error at all.  The src/src/index.ts variant deviates: a plain string third
argument - no wrongly-typed field anywhere - still trips the check that
implements the present-but-not-callable `getRegistry` error. -/
theorem spec_c6_type_errors (o : ISetupPromClientOptions)
    (path : HttpRequestPath) (freshReg : Registry) (server : IHttpServer)
    (hs : server.isEgoHttpServer = true) :
    (isErr (setupPromClientV2 server path (.options o) freshReg).2 = true ↔
      (o.getRegistry = .bad ∨ o.use = .bad ∨ o.httpMethod = .bad)) ∧
    (∀ (r : Registry) (ms : List HttpMiddleware) (s : String)
        (p : RegistryProvider),
      isErr (setupPromClientV2 server path .nil freshReg).2 = false ∧
      isErr (setupPromClientV2 server path (.registry r) freshReg).2 = false ∧
      isErr (setupPromClientV2 server path (.array ms) freshReg).2 = false ∧
      isErr (setupPromClientV2 server path (.str s) freshReg).2 = false ∧
      isErr (setupPromClientV2 server path (.func p) freshReg).2 = false) ∧
    setupPromClientV1 server path (.str "post") freshReg =
      ([], Except.error "optionsOrRegistry is an invalid value") := by
  refine ⟨?_, ?_, by simp [setupPromClientV1, hs]⟩
  · rcases o with ⟨g, hm, u⟩
    cases g <;> cases hm <;> cases u <;>
      simp [setupPromClientV2, hs, isErr]
  · intro r ms s p
    refine ⟨?_, ?_, ?_, ?_, ?_⟩ <;> simp [setupPromClientV2, hs, isErr]

/-- Witness for C6 at a concrete server and a wrongly-typed `use` field. -/
theorem spec_c6_type_errors_witness :
    (IHttpServer.mk true).isEgoHttpServer = true ∧
    (isErr (setupPromClientV2 ⟨true⟩ 0
        (.options ⟨.nil, .nil, .bad⟩) ⟨1, "", ""⟩).2 = true ↔
      ((JsField.nil : JsField RegistryProvider) = .bad ∨
       (JsField.bad : JsField (List HttpMiddleware)) = .bad ∨
       (JsField.nil : JsField String) = .bad)) :=
  ⟨by decide,
   (spec_c6_type_errors ⟨.nil, .nil, .bad⟩ 0 ⟨1, "", ""⟩ ⟨true⟩ (by decide)).1⟩

/-- C7 counterexample: with options `{ use: <non-array> }` (and `getRegistry`
absent), both variants create a fresh registry and trigger default-metrics
collection, and only then raise the `use` type error - a side effect beyond
the server-type check does occur before a setup-time type error. -/
theorem spec_c7_counterexample :
    setupPromClientV2 ⟨true⟩ 0 (.options ⟨.nil, .nil, .bad⟩) ⟨1, "", ""⟩ =
      ([Effect.createRegistry 1, Effect.collectDefaultMetrics 1],
       Except.error "use must be of type array") ∧
    setupPromClientV1 ⟨true⟩ 0 (.options ⟨.nil, .nil, .bad⟩) ⟨1, "", ""⟩ =
      ([Effect.createRegistry 1, Effect.collectDefaultMetrics 1],
       Except.error "arg3.use must be of type array") :=
  ⟨rfl, rfl⟩

/-- C7 as amended: in both variants, every call that raises a setup-time type
error aborts before any registration (no handler is wired up), and the only
side effects that can precede the error are the creation of the fresh default
registry together with its default-metrics collection - which do occur when
`getRegistry` is absent while `use` or `httpMethod` is wrongly typed. -/
theorem spec_c7_error_effects (server : IHttpServer) (path : HttpRequestPath)
    (arg3 : SetupPromClientArg3) (freshReg : Registry) :
    (isErr (setupPromClientV1 server path arg3 freshReg).2 = true →
      (setupPromClientV1 server path arg3 freshReg).1 = [] ∨
      (setupPromClientV1 server path arg3 freshReg).1 =
        [Effect.createRegistry freshReg.id,
         Effect.collectDefaultMetrics freshReg.id]) ∧
    (isErr (setupPromClientV2 server path arg3 freshReg).2 = true →
      (setupPromClientV2 server path arg3 freshReg).1 = [] ∨
      (setupPromClientV2 server path arg3 freshReg).1 =
        [Effect.createRegistry freshReg.id,
         Effect.collectDefaultMetrics freshReg.id]) := by
  constructor <;>
    cases hserver : server.isEgoHttpServer <;>
      rcases arg3 with _ | r | ms | ⟨g, hm, u⟩ | s | p <;>
        first
        | (cases g <;> cases hm <;> cases u <;>
            simp [setupPromClientV1, setupPromClientV2, isErr, hserver])
        | simp [setupPromClientV1, setupPromClientV2, isErr, hserver]

/-- Witness for C7 as amended, at the counterexample input. -/
theorem spec_c7_error_effects_witness :
    isErr (setupPromClientV2 ⟨true⟩ 0
        (.options ⟨.nil, .nil, .bad⟩) ⟨1, "", ""⟩).2 = true ∧
    ((setupPromClientV2 ⟨true⟩ 0 (.options ⟨.nil, .nil, .bad⟩) ⟨1, "", ""⟩).1 =
        [] ∨
     (setupPromClientV2 ⟨true⟩ 0 (.options ⟨.nil, .nil, .bad⟩) ⟨1, "", ""⟩).1 =
        [Effect.createRegistry 1, Effect.collectDefaultMetrics 1]) :=
  ⟨by decide,
   (spec_c7_error_effects ⟨true⟩ 0 (.options ⟨.nil, .nil, .bad⟩)
     ⟨1, "", ""⟩).2 (by decide)⟩

/-- C8: the `asAsync` wrapper (modelled from the spec, its implementation
living outside the given sources) turns any provider - synchronous or
promise-returning - into an always-promise-returning provider resolving to
the provider's own underlying registry; wrapping a synchronous and an
asynchronous provider of the same registry is indistinguishable downstream,
in particular the whole setup outcome coincides. -/
theorem spec_c8_async_wrapper (p : RegistryProvider) (r : Registry)
    (server : IHttpServer) (path : HttpRequestPath) (freshReg : Registry) :
    (asAsync p).resolvesTo = p.resolve ∧
    asAsync (.sync r) = asAsync (.promise r) ∧
    setupPromClientV2 server path (.func (.sync r)) freshReg =
      setupPromClientV2 server path (.func (.promise r)) freshReg := by
  refine ⟨rfl, rfl, ?_⟩
  cases hserver : server.isEgoHttpServer <;>
    simp [setupPromClientV2, hserver, asAsync, RegistryProvider.resolve]

/-- C9 counterexample: the two variants do not resolve identical
configurations on an array third argument (src/src/index.ts throws where
part_000 registers), and in src/src/index.ts a bare function third argument
is not a type error - it is silently ignored in favour of a fresh default
registry. -/
theorem spec_c9_counterexample :
    (setupPromClientV1 ⟨true⟩ 0 (.array [3]) ⟨1, "", ""⟩).2 =
      Except.error "optionsOrRegistry is an invalid value" ∧
    (setupPromClientV2 ⟨true⟩ 0 (.array [3]) ⟨1, "", ""⟩).2 =
      Except.ok ⟨⟨⟨1, "", ""⟩⟩⟩ ∧
    setupPromClientV1 ⟨true⟩ 0 (.func (.sync ⟨5, "m", "ct"⟩)) ⟨1, "", ""⟩ =
      ([Effect.createRegistry 1, Effect.collectDefaultMetrics 1,
        Effect.register "get" 0 [] ⟨⟨1, "", ""⟩⟩],
       Except.ok ⟨⟨⟨1, "", ""⟩⟩⟩) :=
  ⟨rfl, rfl, rfl⟩

/-- C9 as amended: the two overload variants agree (same outcome, including
effects and result) on registry-instance and nil third arguments, agree on
options objects whenever all fields are well-typed and raise type errors for
exactly the same options objects; they differ beyond the bare-function case:
for array and string third arguments the src/src/index.ts variant throws
`TypeError("optionsOrRegistry is an invalid value")` where part_000 registers
normally, and for a bare function part_000 resolves
`{ getRegistry: that function }` while src/src/index.ts raises no error,
ignores the function, and sets up a fresh default registry instead. -/
theorem spec_c9_variants (server : IHttpServer) (path : HttpRequestPath)
    (freshReg r : Registry) (o : ISetupPromClientOptions)
    (ms : List HttpMiddleware) (s : String) (p : RegistryProvider)
    (hs : server.isEgoHttpServer = true) :
    setupPromClientV1 server path (.registry r) freshReg =
      setupPromClientV2 server path (.registry r) freshReg ∧
    setupPromClientV1 server path .nil freshReg =
      setupPromClientV2 server path .nil freshReg ∧
    isErr (setupPromClientV1 server path (.options o) freshReg).2 =
      isErr (setupPromClientV2 server path (.options o) freshReg).2 ∧
    (o.getRegistry ≠ .bad → o.use ≠ .bad → o.httpMethod ≠ .bad →
      setupPromClientV1 server path (.options o) freshReg =
        setupPromClientV2 server path (.options o) freshReg) ∧
    setupPromClientV1 server path (.array ms) freshReg =
      ([], Except.error "optionsOrRegistry is an invalid value") ∧
    (setupPromClientV2 server path (.array ms) freshReg).2 =
      Except.ok ⟨⟨freshReg⟩⟩ ∧
    setupPromClientV1 server path (.str s) freshReg =
      ([], Except.error "optionsOrRegistry is an invalid value") ∧
    (setupPromClientV2 server path (.str s) freshReg).2 =
      Except.ok ⟨⟨freshReg⟩⟩ ∧
    setupPromClientV2 server path (.func p) freshReg =
      ([Effect.register "get" path [] (asAsync p)], Except.ok ⟨asAsync p⟩) ∧
    setupPromClientV1 server path (.func p) freshReg =
      ([Effect.createRegistry freshReg.id,
        Effect.collectDefaultMetrics freshReg.id,
        Effect.register "get" path [] ⟨freshReg⟩],
       Except.ok ⟨⟨freshReg⟩⟩) := by
  refine ⟨?_, ?_, ?_, ?_, ?_, ?_, ?_, ?_, ?_, ?_⟩
  · simp [setupPromClientV1, setupPromClientV2, hs]
  · simp [setupPromClientV1, setupPromClientV2, hs]
  · rcases o with ⟨g, hm, u⟩
    cases g <;> cases hm <;> cases u <;>
      simp [setupPromClientV1, setupPromClientV2, isErr, hs]
  · rcases o with ⟨g, hm, u⟩
    intro hg huse hhm
    cases g <;> cases hm <;> cases u <;>
      first
      | exact absurd rfl hg
      | exact absurd rfl huse
      | exact absurd rfl hhm
      | simp [setupPromClientV1, setupPromClientV2, hs]
  · simp [setupPromClientV1, hs]
  · simp [setupPromClientV2, hs, asAsync, RegistryProvider.resolve]
  · simp [setupPromClientV1, hs]
  · simp [setupPromClientV2, hs, asAsync, RegistryProvider.resolve]
  · simp [setupPromClientV2, hs]
  · simp [setupPromClientV1, hs, asAsync, RegistryProvider.resolve]

/-- Witness for C9 as amended, at concrete inputs. -/
theorem spec_c9_variants_witness :
    (IHttpServer.mk true).isEgoHttpServer = true ∧
    setupPromClientV1 ⟨true⟩ 0 (.registry ⟨4, "x", "y"⟩) ⟨1, "", ""⟩ =
      setupPromClientV2 ⟨true⟩ 0 (.registry ⟨4, "x", "y"⟩) ⟨1, "", ""⟩ ∧
    setupPromClientV1 ⟨true⟩ 0 (.str "put") ⟨1, "", ""⟩ =
      ([], Except.error "optionsOrRegistry is an invalid value") :=
  ⟨by decide,
   (spec_c9_variants ⟨true⟩ 0 ⟨1, "", ""⟩ ⟨4, "x", "y"⟩ ⟨.nil, .nil, .nil⟩
     [] "put" (.sync ⟨0, "", ""⟩) (by decide)).1,
   (spec_c9_variants ⟨true⟩ 0 ⟨1, "", ""⟩ ⟨4, "x", "y"⟩ ⟨.nil, .nil, .nil⟩
     [] "put" (.sync ⟨0, "", ""⟩) (by decide)).2.2.2.2.2.2.1⟩

/-- C10: the middleware array handed to registration is a freshly allocated
array holding an element-wise copy of the caller's array taken at setup time,
so later in-place mutation of the caller's array does not change what was
registered (while it does change the caller's own array); likewise the
part_000 variant spread-copies the options object and performs its
`getRegistry` write on the copy, leaving the caller's object untouched. -/
theorem spec_c10_no_mutation (h : ArrHeap) (caller : Nat)
    (hc : caller < h.length) (ms2 : List HttpMiddleware)
    (ho : OptHeap) (oc : Nat) (hoc : oc < ho.length) (d : RegistryProvider) :
    (buildUseArray h caller).2 ≠ caller ∧
    readArr (buildUseArray h caller).1 (buildUseArray h caller).2 =
      readArr h caller ∧
    readArr (writeArr (buildUseArray h caller).1 caller ms2)
      (buildUseArray h caller).2 = readArr h caller ∧
    readArr (writeArr (buildUseArray h caller).1 caller ms2) caller = ms2 ∧
    (copyAndResolveOptions ho oc d).2 ≠ oc ∧
    readOpt (copyAndResolveOptions ho oc d).1 oc = readOpt ho oc := by
  refine ⟨?_, ?_, ?_, ?_, ?_, ?_⟩
  · simp only [buildUseArray]
    omega
  · simp only [buildUseArray, readArr]
    exact getD_append_self h _ _
  · simp only [buildUseArray, readArr, writeArr]
    rw [getD_set_ne _ _ _ _ _ (by omega)]
    exact getD_append_self h _ _
  · simp only [buildUseArray, readArr, writeArr]
    exact getD_set_self _ _ _ _ (by simp; omega)
  · simp only [copyAndResolveOptions]
    omega
  · simp only [copyAndResolveOptions, readOpt]
    exact getD_append_left _ _ _ _ hoc

/-- Witness for C10 at a concrete heap: caller's array `[5]`, mutated to
`[9]` after setup; the registered copy still reads `[5]`. -/
theorem spec_c10_no_mutation_witness :
    0 < ([[5]] : ArrHeap).length ∧
    (buildUseArray [[5]] 0).2 ≠ 0 ∧
    readArr (writeArr (buildUseArray [[5]] 0).1 0 [9])
      (buildUseArray [[5]] 0).2 = readArr [[5]] 0 :=
  ⟨by decide,
   (spec_c10_no_mutation [[5]] 0 (by decide) [9] [⟨.nil, .nil, .nil⟩] 0
     (by decide) (.sync ⟨0, "", ""⟩)).1,
   (spec_c10_no_mutation [[5]] 0 (by decide) [9] [⟨.nil, .nil, .nil⟩] 0
     (by decide) (.sync ⟨0, "", ""⟩)).2.2.1⟩
